import Mathlib

set_option maxRecDepth 100000

/-
Verification of the AstraJVCBridge firmware (src/astrajvcbridge.c):
a steering-wheel-remote to JVC-radio protocol bridge for the ATTINY85.

The transmitter, the ADC classifier and the dispatcher switch are embedded
shallowly from the C source.  The debouncer lives in debounce.h, which is
not part of the provided sources; it is modelled from the specification.
-/

/-! ## Transmitter embedding

The transmitter (`JVCPulseLengthEncoding`, `JVC7BitByte`, `JVCCommand`)
manipulates one output line (`_movNamedBitNoPullUp(JVC, b)`) and the tick
counter (`waitForTick(n)`).  We record its externally observable behaviour
as a list of primitive actions. -/

/-- One primitive action of the transmitter: drive the output line to a
level, or consume `n` ticks from the tick source while the line holds. -/
inductive TxAct where
  | set (level : Bool)
  | wait (n : Nat)
deriving DecidableEq, Repr

/-- `JVCPulseLengthEncoding` from the source: drive low, wait 1 tick,
drive high, wait 1 tick, and if `val != 0` wait a further 2 ticks. -/
def JVCPulseLengthEncoding (val : Nat) : List TxAct :=
  [TxAct.set false, TxAct.wait 1, TxAct.set true, TxAct.wait 1] ++
    (if val ≠ 0 then [TxAct.wait 2] else [])

/-- `JVC7BitByte` from the source: seven pulse-length-encoded bits,
masks `0x01` through `0x40`, i.e. LSB first. -/
def JVC7BitByte (cmd : Nat) : List TxAct :=
  JVCPulseLengthEncoding (cmd &&& 0x01) ++
  JVCPulseLengthEncoding (cmd &&& 0x02) ++
  JVCPulseLengthEncoding (cmd &&& 0x04) ++
  JVCPulseLengthEncoding (cmd &&& 0x08) ++
  JVCPulseLengthEncoding (cmd &&& 0x10) ++
  JVCPulseLengthEncoding (cmd &&& 0x20) ++
  JVCPulseLengthEncoding (cmd &&& 0x40)

/-- The body of the `for` loop in `JVCCommand`: header (bus reset high for
1 tick, AGC low for 16 ticks, AGC high for 8 ticks), start bit, address
byte `0x47`, command byte, and two stop bits. -/
def JVCCommandFrame (cmd : Nat) : List TxAct :=
  [TxAct.set true, TxAct.wait 1,
   TxAct.set false, TxAct.wait 16,
   TxAct.set true, TxAct.wait 8] ++
  JVCPulseLengthEncoding 1 ++
  JVC7BitByte 0x47 ++
  JVC7BitByte cmd ++
  JVCPulseLengthEncoding 1 ++
  JVCPulseLengthEncoding 1

/-- The `for (int i = 1; i <= 3; i++)` loop of `JVCCommand`, by remaining
iteration count. -/
def JVCCommandLoop : Nat → Nat → List TxAct
  | 0, _ => []
  | k + 1, cmd => JVCCommandFrame cmd ++ JVCCommandLoop k cmd

/-- `JVCCommand` from the source: the frame loop run three times. -/
def JVCCommand (cmd : Nat) : List TxAct :=
  JVCCommandLoop 3 cmd

/-- Waveform semantics of an action list: given the current line level,
produce the run-length-encoded waveform as `(level, ticks)` segments,
merging adjacent segments at the same level. -/
def waveform : Bool → List TxAct → List (Bool × Nat)
  | _, [] => []
  | _, TxAct.set b :: rest => waveform b rest
  | l, TxAct.wait n :: rest =>
    match waveform l rest with
    | [] => [(l, n)]
    | (l2, m) :: tail =>
      if l = l2 then (l, n + m) :: tail else (l, n) :: (l2, m) :: tail

/-- Total ticks a waveform segment list occupies at the high level. -/
def highTicks (w : List (Bool × Nat)) : Nat :=
  (w.filter (fun p => p.1 = true)).foldr (fun p acc => p.2 + acc) 0

/-- Total ticks a waveform segment list occupies at the low level. -/
def lowTicks (w : List (Bool × Nat)) : Nat :=
  (w.filter (fun p => p.1 = false)).foldr (fun p acc => p.2 + acc) 0

/-- Total ticks consumed by an action list (sum of all waits). -/
def totalTicks : List TxAct → Nat
  | [] => 0
  | TxAct.set _ :: rest => totalTicks rest
  | TxAct.wait n :: rest => n + totalTicks rest

/-- Pulse-length encoding of a boolean bit value, as the claims phrase it:
the encoding of `1` when the bit is set and of `0` otherwise. -/
def pleBit (b : Bool) : List TxAct :=
  JVCPulseLengthEncoding (if b then 1 else 0)

/-- Population count, by binary digits with a structural fuel so that it
evaluates inside the kernel. -/
def popcountAux : Nat → Nat → Nat
  | 0, _ => 0
  | _ + 1, 0 => 0
  | fuel + 1, n => n % 2 + popcountAux fuel (n / 2)

/-- Population count (number of set bits). -/
def popcount (n : Nat) : Nat :=
  popcountAux n n

/-! ## Classifier embedding -/

/-- `#define CAR_IDLE 910` -/
def CAR_IDLE : Nat := 910
/-- `#define CAR_SOUND 391` -/
def CAR_SOUND : Nat := 391
/-- `#define CAR_VOLDN 157` -/
def CAR_VOLDN : Nat := 157
/-- `#define CAR_VOLUP 269` -/
def CAR_VOLUP : Nat := 269
/-- `#define CAR_UPARR 780` -/
def CAR_UPARR : Nat := 780
/-- `#define CAR_BKARR 648` -/
def CAR_BKARR : Nat := 648
/-- `#define CAR_FDARR 516` -/
def CAR_FDARR : Nat := 516
/-- `#define TOLLERANCE 30` -/
def TOLLERANCE : Nat := 30

/-- `#define JVC_VOLUP 0x04` -/
def JVC_VOLUP : Nat := 0x04
/-- `#define JVC_VOLDN 0x05` -/
def JVC_VOLDN : Nat := 0x05
/-- `#define JVC_SOUND 0x0D` -/
def JVC_SOUND : Nat := 0x0D
/-- `#define JVC_SRC 0x08` -/
def JVC_SRC : Nat := 0x08
/-- `#define JVC_SKIPBK 0x11` -/
def JVC_SKIPBK : Nat := 0x11
/-- `#define JVC_SKIPFD 0x12` -/
def JVC_SKIPFD : Nat := 0x12
/-- `#define JVC_SKIPBKH 0x13` -/
def JVC_SKIPBKH : Nat := 0x13
/-- `#define JVC_SKIPFDH 0x14` -/
def JVC_SKIPFDH : Nat := 0x14

/-- `enum {VAL_IDLE, VAL_VOLUP, VAL_VOLDN, VAL_SRC, VAL_SEEKFWD, VAL_SEEKBK, VAL_SOUND}` -/
def VAL_IDLE : Nat := 0
def VAL_VOLUP : Nat := 1
def VAL_VOLDN : Nat := 2
def VAL_SRC : Nat := 3
def VAL_SEEKFWD : Nat := 4
def VAL_SEEKBK : Nat := 5
def VAL_SOUND : Nat := 6

/-- Reinterpret a `uint16_t` value as AVR `signed int` (16 bit), as the
cast `(signed)value` does in `inRange`. -/
def toInt16 (n : Nat) : Int :=
  if n % 65536 < 32768 then (n % 65536 : Int) else (n % 65536 : Int) - 65536

/-- Wrap an integer into the `int16_t` range, as the 16-bit subtraction
producing `chk` does on the AVR. -/
def wrap16 (z : Int) : Int :=
  if z % 65536 < 32768 then z % 65536 else z % 65536 - 65536

/-- `inRange` from the source: `chk = (signed)value - (signed)tollerance`
in 16-bit signed arithmetic; `lower` is 0 when `chk <= 0` and the
`uint16_t` difference `value - tollerance` otherwise; `upper` is the
`uint16_t` sum `value + tollerance`; the sample is in range when
`lower <= adcVal <= upper`. -/
def inRange (adcVal value tollerance : Nat) : Bool :=
  let chk : Int := wrap16 (toInt16 value - toInt16 tollerance)
  let lower : Nat := if chk ≤ 0 then 0 else (value % 65536 + 65536 - tollerance % 65536) % 65536
  let upper : Nat := (value % 65536 + tollerance % 65536) % 65536
  decide (lower ≤ adcVal) && decide (adcVal ≤ upper)

/-- `DecodeAnalogue` from the source: probe the windows in declaration
order, first match wins, fall through to `VAL_IDLE`. -/
def DecodeAnalogue (adcVal : Nat) : Nat :=
  if inRange adcVal CAR_VOLUP TOLLERANCE then VAL_VOLUP
  else if inRange adcVal CAR_VOLDN TOLLERANCE then VAL_VOLDN
  else if inRange adcVal CAR_UPARR TOLLERANCE then VAL_SRC
  else if inRange adcVal CAR_FDARR TOLLERANCE then VAL_SEEKFWD
  else if inRange adcVal CAR_BKARR TOLLERANCE then VAL_SEEKBK
  else if inRange adcVal CAR_SOUND TOLLERANCE then VAL_SOUND
  else VAL_IDLE

/-! ## Dispatcher embedding

One pass of the `switch (cCombined)` statement in `main`.  Each branch
sends zero or one JVC commands; the Volume branches additionally call
`waitForTick(400UL)` after the send, consuming 400 ticks before the loop
returns to its head and samples again.  After the switch the source
executes `cCombinedLast = cCombined`. -/

/-- Result of one dispatcher pass: the commands handed to `JVCCommand`,
in order, and the ticks consumed by `waitForTick` after the sends. -/
structure StepResult where
  sends : List Nat
  cooldown : Nat
deriving DecidableEq, Repr

/-- The `switch (cCombined)` statement of `main`, as a function of the
debounced value `c` and the previous pass's value `last`. -/
def mainSwitch (c last : Nat) : StepResult :=
  if c = VAL_SEEKFWD then
    if c ≠ last then ⟨[JVC_SKIPFD], 0⟩ else ⟨[JVC_SKIPFD], 0⟩
  else if c = VAL_SEEKBK then
    if c ≠ last then ⟨[JVC_SKIPBK], 0⟩ else ⟨[JVC_SKIPBKH], 0⟩
  else if c = VAL_VOLUP then ⟨[JVC_VOLUP], 400⟩
  else if c = VAL_VOLDN then ⟨[JVC_VOLDN], 400⟩
  else if c = VAL_SRC then
    if c ≠ last then ⟨[JVC_SRC], 0⟩ else ⟨[], 0⟩
  else if c = VAL_SOUND then
    if c ≠ last then ⟨[JVC_SOUND], 0⟩ else ⟨[], 0⟩
  else ⟨[], 0⟩

/-- Run the dispatcher over a sequence of debounced values, starting from
previous value `last`; yields the commands sent on each pass.  Mirrors
the loop body: run the switch, then `cCombinedLast = cCombined`. -/
def dispatchRun : Nat → List Nat → List (List Nat)
  | _, [] => []
  | last, c :: rest => (mainSwitch c last).sends :: dispatchRun c rest

/-! ## Debouncer

`debounce.h` is not among the provided sources; only its call sites are
(`initDebounce(&cDebounce, 5, VAL_IDLE, 0)` and
`getDebounced(&cDebounce, decodedValue)`). -/

/-- Modelled from the spec: `DebouncerState` of §3 —
`{ required_stable_ticks, idle_value, current_stable, candidate,
candidate_age_ticks, one_shot }`, ages held in `u8`. -/
structure debounceData where
  required_stable_ticks : Nat
  idle_value : Nat
  current_stable : Nat
  candidate : Nat
  candidate_age_ticks : Nat
  one_shot : Bool
deriving DecidableEq, Repr

/-- Modelled from the spec: `initDebounce` (declared in `debounce.h`,
definition missing) — initialized at boot with
`current_stable = idle_value`, no pending candidate. -/
def initDebounce (ticks idleValue : Nat) (oneShot : Bool) : debounceData :=
  ⟨ticks, idleValue, idleValue, idleValue, 0, oneShot⟩

/-- Modelled from the spec: `getDebounced` (declared in `debounce.h`,
definition missing) — the `sample` operation of §4.2: a value equal to
the stable one resets the candidate; a value equal to the candidate ages
it (saturating at the `u8` maximum) and commits once the age reaches
`required_stable_ticks`; any other value becomes the new candidate with
age 1.  Returns the (possibly updated) stable value. -/
def getDebounced (d : debounceData) (input : Nat) : debounceData × Nat :=
  if input = d.current_stable then
    (⟨d.required_stable_ticks, d.idle_value, d.current_stable,
      d.current_stable, 0, d.one_shot⟩, d.current_stable)
  else if input = d.candidate then
    let age := min (d.candidate_age_ticks + 1) 255
    if d.required_stable_ticks ≤ age then
      (⟨d.required_stable_ticks, d.idle_value, d.candidate,
        d.candidate, 0, d.one_shot⟩, d.candidate)
    else
      (⟨d.required_stable_ticks, d.idle_value, d.current_stable,
        d.candidate, age, d.one_shot⟩, d.current_stable)
  else
    (⟨d.required_stable_ticks, d.idle_value, d.current_stable,
      input, 1, d.one_shot⟩, d.current_stable)

/-- Feed the same input value `k` times; the state after the calls. -/
def feedState (d : debounceData) (input : Nat) : Nat → debounceData
  | 0 => d
  | k + 1 => (getDebounced (feedState d input k) input).1

/-- The value returned by the `k`-th consecutive call (1-based). -/
def feedOut (d : debounceData) (input k : Nat) : Nat :=
  (getDebounced (feedState d input (k - 1)) input).2

/-- Window membership as the claims phrase it: within `TOLLERANCE` of a
configured center (the lower bound truncating at 0). -/
def inWindow (s c : Nat) : Prop :=
  c - TOLLERANCE ≤ s ∧ s ≤ c + TOLLERANCE

instance (s c : Nat) : Decidable (inWindow s c) := by
  unfold inWindow
  infer_instance

/-! ## Helper lemmas -/

lemma feedState_holding (N S X : Nat) (hN : N ≤ 255) (hXS : X ≠ S) :
    ∀ k, 1 ≤ k → k < N →
      feedState (initDebounce N S false) X k = ⟨N, S, S, X, k, false⟩ := by
  intro k
  induction k with
  | zero => intro h; omega
  | succ k ih =>
    intro _ hk1
    rcases Nat.eq_zero_or_pos k with h0 | hpos
    · subst h0
      show (getDebounced (feedState (initDebounce N S false) X 0) X).1 = _
      simp [feedState, getDebounced, initDebounce, hXS]
    · have hk : k < N := by omega
      show (getDebounced (feedState (initDebounce N S false) X k) X).1 = _
      rw [ih hpos hk]
      have hmin : min (k + 1) 255 = k + 1 := by omega
      have hnle : ¬ N ≤ k + 1 := by omega
      simp [getDebounced, hXS, hmin, hnle]

lemma dispatchRun_hold_src (k : Nat) :
    dispatchRun VAL_SRC (List.replicate k VAL_SRC ++ [VAL_IDLE]) =
      List.replicate (k + 1) ([] : List Nat) := by
  induction k with
  | zero => decide
  | succ k ih =>
    have hstep : List.replicate (k + 1) VAL_SRC ++ [VAL_IDLE] =
        VAL_SRC :: (List.replicate k VAL_SRC ++ [VAL_IDLE]) := by
      simp [List.replicate_succ]
    rw [hstep]
    show (mainSwitch VAL_SRC VAL_SRC).sends ::
      dispatchRun VAL_SRC (List.replicate k VAL_SRC ++ [VAL_IDLE]) = _
    rw [ih]
    rfl

lemma dispatchRun_hold_sound (k : Nat) :
    dispatchRun VAL_SOUND (List.replicate k VAL_SOUND ++ [VAL_IDLE]) =
      List.replicate (k + 1) ([] : List Nat) := by
  induction k with
  | zero => decide
  | succ k ih =>
    have hstep : List.replicate (k + 1) VAL_SOUND ++ [VAL_IDLE] =
        VAL_SOUND :: (List.replicate k VAL_SOUND ++ [VAL_IDLE]) := by
      simp [List.replicate_succ]
    rw [hstep]
    show (mainSwitch VAL_SOUND VAL_SOUND).sends ::
      dispatchRun VAL_SOUND (List.replicate k VAL_SOUND ++ [VAL_IDLE]) = _
    rw [ih]
    rfl

lemma jvcPLE_and_two_pow (cmd i : Nat) :
    JVCPulseLengthEncoding (cmd &&& 2 ^ i) = pleBit (cmd.testBit i) := by
  rw [Nat.and_two_pow]
  cases h : cmd.testBit i
  · simp [pleBit, JVCPulseLengthEncoding]
  · simp [pleBit, JVCPulseLengthEncoding, (Nat.two_pow_pos i).ne']

lemma jvc7BitByte_bits (cmd : Nat) :
    JVC7BitByte cmd = ((List.range 7).map fun i => pleBit (cmd.testBit i)).flatten := by
  have h0 := jvcPLE_and_two_pow cmd 0
  have h1 := jvcPLE_and_two_pow cmd 1
  have h2 := jvcPLE_and_two_pow cmd 2
  have h3 := jvcPLE_and_two_pow cmd 3
  have h4 := jvcPLE_and_two_pow cmd 4
  have h5 := jvcPLE_and_two_pow cmd 5
  have h6 := jvcPLE_and_two_pow cmd 6
  norm_num at h0 h1 h2 h3 h4 h5 h6
  simp [JVC7BitByte, List.range_succ, h0, h1, h2, h3, h4, h5, h6]

/-! ## Claim theorems -/

/-- C1: a single `JVCCommand` call emits exactly three repetitions of the
frame: bus-reset high for 1 tick, AGC low for 16 ticks, AGC high for
8 ticks, a start bit as a PLE bit of value 1, the address byte, the
command byte, and two PLE-encoded stop bits of value 1. -/
theorem JVCCommand_three_frames (cmd : Nat) :
    JVCCommand cmd =
      (List.replicate 3
        ([TxAct.set true, TxAct.wait 1,
          TxAct.set false, TxAct.wait 16,
          TxAct.set true, TxAct.wait 8] ++
         pleBit true ++ JVC7BitByte 0x47 ++ JVC7BitByte cmd ++
         pleBit true ++ pleBit true)).flatten := by
  simp [JVCCommand, JVCCommandLoop, JVCCommandFrame, pleBit,
    List.replicate_succ]

/-- C2: every frame of a `JVCCommand` call carries the address byte `0x47`
and the body byte `cmd`, each as exactly seven PLE bits in LSB-first
order (bit 0 first, bit 6 last); the eighth bit is never transmitted, so
the output only depends on `cmd % 128`. -/
theorem JVCCommand_addr_body_bits (cmd : Nat) :
    JVCCommand cmd =
      (List.replicate 3
        ([TxAct.set true, TxAct.wait 1,
          TxAct.set false, TxAct.wait 16,
          TxAct.set true, TxAct.wait 8] ++
         pleBit true ++
         ((List.range 7).map fun i => pleBit (Nat.testBit 0x47 i)).flatten ++
         ((List.range 7).map fun i => pleBit (Nat.testBit cmd i)).flatten ++
         pleBit true ++ pleBit true)).flatten ∧
    JVCCommand cmd = JVCCommand (cmd % 128) := by
  have hbits : ∀ i < 7, (cmd % 128).testBit i = cmd.testBit i := by
    intro i hi
    have h128 : (128 : Nat) = 2 ^ 7 := by norm_num
    rw [h128, Nat.testBit_mod_two_pow]
    simp [hi]
  constructor
  · simp only [JVCCommand, JVCCommandLoop, JVCCommandFrame,
      jvc7BitByte_bits, pleBit, List.replicate_succ]
    simp
  · simp only [JVCCommand, JVCCommandLoop, JVCCommandFrame,
      jvc7BitByte_bits cmd, jvc7BitByte_bits (cmd % 128)]
    have : ((List.range 7).map fun i => pleBit ((cmd % 128).testBit i)) =
        (List.range 7).map fun i => pleBit (cmd.testBit i) := by
      apply List.map_congr_left
      intro i hi
      rw [hbits i (List.mem_range.mp hi)]
    rw [this]

/-- C3: a PLE bit drives the line low for exactly 1 tick, then high for
exactly 1 tick when the value is 0 and exactly 3 ticks when it is
nonzero; hence a one bit's high phase is three times a zero bit's, and
the low phases are identical. -/
theorem JVCPulseLengthEncoding_waveform (v : Nat) :
    (v = 0 →
      waveform true (JVCPulseLengthEncoding v) = [(false, 1), (true, 1)]) ∧
    (v ≠ 0 →
      waveform true (JVCPulseLengthEncoding v) = [(false, 1), (true, 3)] ∧
      highTicks (waveform true (JVCPulseLengthEncoding v)) =
        3 * highTicks (waveform true (JVCPulseLengthEncoding 0)) ∧
      lowTicks (waveform true (JVCPulseLengthEncoding v)) =
        lowTicks (waveform true (JVCPulseLengthEncoding 0))) := by
  constructor
  · intro h; subst h; decide
  · intro h
    have hv : JVCPulseLengthEncoding v =
        [TxAct.set false, TxAct.wait 1, TxAct.set true, TxAct.wait 1,
         TxAct.wait 2] := by
      simp [JVCPulseLengthEncoding, h]
    rw [hv]
    refine ⟨by decide, by decide, by decide⟩

/-- C3 witness: the two cases instantiated at `v = 0` and `v = 1`. -/
theorem JVCPulseLengthEncoding_waveform_witness :
    waveform true (JVCPulseLengthEncoding 0) = [(false, 1), (true, 1)] ∧
    waveform true (JVCPulseLengthEncoding 1) = [(false, 1), (true, 3)] :=
  ⟨(JVCPulseLengthEncoding_waveform 0).1 rfl,
   ((JVCPulseLengthEncoding_waveform 1).2 (by decide)).1⟩

/-- C6: on a pass where the debounced value is `VAL_SEEKFWD`, the
dispatcher sends `JVC_SKIPFD` (0x12) both on first observation and while
held; on `VAL_SEEKBK` it sends `JVC_SKIPBK` (0x11) on first observation
and `JVC_SKIPBKH` (0x13) while held. -/
theorem mainSwitch_seek (last : Nat) :
    (last ≠ VAL_SEEKFWD → (mainSwitch VAL_SEEKFWD last).sends = [JVC_SKIPFD]) ∧
    (mainSwitch VAL_SEEKFWD VAL_SEEKFWD).sends = [JVC_SKIPFD] ∧
    (last ≠ VAL_SEEKBK → (mainSwitch VAL_SEEKBK last).sends = [JVC_SKIPBK]) ∧
    (mainSwitch VAL_SEEKBK VAL_SEEKBK).sends = [JVC_SKIPBKH] ∧
    JVC_SKIPFD = 0x12 ∧ JVC_SKIPBK = 0x11 ∧ JVC_SKIPBKH = 0x13 := by
  refine ⟨?_, by decide, ?_, by decide, rfl, rfl, rfl⟩
  · intro _
    simp [mainSwitch, VAL_SEEKFWD]
  · intro h
    have h5 : (5 : Nat) ≠ last := by
      simp only [VAL_SEEKBK] at h
      exact fun he => h he.symm
    simp [mainSwitch, VAL_SEEKBK, VAL_SEEKFWD, h5]

/-- C6 witness: the seek branches instantiated with previous value
`VAL_IDLE`. -/
theorem mainSwitch_seek_witness :
    (VAL_IDLE ≠ VAL_SEEKFWD ∧
      (mainSwitch VAL_SEEKFWD VAL_IDLE).sends = [JVC_SKIPFD]) ∧
    (VAL_IDLE ≠ VAL_SEEKBK ∧
      (mainSwitch VAL_SEEKBK VAL_IDLE).sends = [JVC_SKIPBK]) :=
  ⟨⟨by decide, (mainSwitch_seek VAL_IDLE).1 (by decide)⟩,
   ⟨by decide, (mainSwitch_seek VAL_IDLE).2.2.1 (by decide)⟩⟩

/-- C7: on every pass where the debounced value is `VAL_VOLUP` or
`VAL_VOLDN`, the dispatcher sends the corresponding volume command and
then consumes at least 400 ticks (`waitForTick(400UL)`) before the loop
samples and re-evaluates the input again. -/
theorem mainSwitch_volume_cooldown (last : Nat) :
    (mainSwitch VAL_VOLUP last).sends = [JVC_VOLUP] ∧
    400 ≤ (mainSwitch VAL_VOLUP last).cooldown ∧
    (mainSwitch VAL_VOLDN last).sends = [JVC_VOLDN] ∧
    400 ≤ (mainSwitch VAL_VOLDN last).cooldown := by
  simp [mainSwitch, VAL_VOLUP, VAL_VOLDN, VAL_SEEKFWD, VAL_SEEKBK]

/-- C4: for every ADC sample 0..1023 the classifier returns exactly one
of the seven `LogicalButton` values; each of the six non-idle buttons is
returned on its configured center value; and a sample in none of the six
center-±-tolerance windows decodes to `VAL_IDLE`. -/
theorem DecodeAnalogue_classification :
    (DecodeAnalogue CAR_VOLUP = VAL_VOLUP ∧ DecodeAnalogue CAR_VOLDN = VAL_VOLDN ∧
     DecodeAnalogue CAR_UPARR = VAL_SRC ∧ DecodeAnalogue CAR_FDARR = VAL_SEEKFWD ∧
     DecodeAnalogue CAR_BKARR = VAL_SEEKBK ∧ DecodeAnalogue CAR_SOUND = VAL_SOUND) ∧
    ∀ s, s ≤ 1023 →
      (DecodeAnalogue s = VAL_IDLE ∨ DecodeAnalogue s = VAL_VOLUP ∨
       DecodeAnalogue s = VAL_VOLDN ∨ DecodeAnalogue s = VAL_SRC ∨
       DecodeAnalogue s = VAL_SEEKFWD ∨ DecodeAnalogue s = VAL_SEEKBK ∨
       DecodeAnalogue s = VAL_SOUND) ∧
      (¬ (inWindow s CAR_VOLUP ∨ inWindow s CAR_VOLDN ∨ inWindow s CAR_UPARR ∨
          inWindow s CAR_FDARR ∨ inWindow s CAR_BKARR ∨ inWindow s CAR_SOUND) →
        DecodeAnalogue s = VAL_IDLE) := by
  constructor
  · decide
  · decide

/-- C4 witness: sample 1000 lies in no window and decodes to idle. -/
theorem DecodeAnalogue_classification_witness :
    DecodeAnalogue 1000 = VAL_IDLE :=
  (DecodeAnalogue_classification.2 1000 (by decide)).2 (by decide)

/-- C5 counterexample: with `required_stable_ticks = 1`, stable value 0
and input 1 ≠ 0, the first call records the new candidate but still
reports the old stable value 0, so the commit does not happen on the
`N`-th call when `N = 1`. -/
theorem getDebounced_oneTick_cex :
    (1 : Nat) ≠ 0 ∧
    feedOut (initDebounce 1 0 false) 1 1 = 0 ∧
    ¬ feedOut (initDebounce 1 0 false) 1 1 = 1 ∧
    (feedState (initDebounce 1 0 false) 1 1).current_stable = 0 := by
  decide

/-- C5 (amended to `2 ≤ N`; `N ≤ 255` since the age is a `u8`): from a
freshly initialized debouncer with stable value `S`, feeding `X ≠ S` for
fewer than `N` consecutive calls reports `S` on every call and leaves the
stable value `S`, while the `N`-th consecutive call commits to `X`. -/
theorem getDebounced_commit (N S X : Nat) (hN2 : 2 ≤ N) (hN : N ≤ 255)
    (hXS : X ≠ S) :
    (∀ k, 1 ≤ k → k < N →
      feedOut (initDebounce N S false) X k = S ∧
      (feedState (initDebounce N S false) X k).current_stable = S) ∧
    feedOut (initDebounce N S false) X N = X ∧
    (feedState (initDebounce N S false) X N).current_stable = X := by
  obtain ⟨M, rfl⟩ : ∃ M, N = M + 2 := ⟨N - 2, by omega⟩
  refine ⟨?_, ?_, ?_⟩
  · intro k hk1 hkN
    obtain ⟨j, rfl⟩ : ∃ j, k = j + 1 := ⟨k - 1, by omega⟩
    constructor
    · show (getDebounced (feedState (initDebounce (M + 2) S false) X
        (j + 1 - 1)) X).2 = S
      simp only [Nat.add_sub_cancel]
      rcases Nat.eq_zero_or_pos j with h0 | hpos
      · subst h0
        simp [feedState, getDebounced, initDebounce, hXS]
      · rw [feedState_holding (M + 2) S X hN hXS j (by omega) (by omega)]
        have hmin : min (j + 1) 255 = j + 1 := by omega
        have hlt : ¬ (M + 2 ≤ j + 1) := by omega
        simp [getDebounced, hXS, hmin, hlt]
    · rw [feedState_holding (M + 2) S X hN hXS (j + 1) hk1 hkN]
  · show (getDebounced (feedState (initDebounce (M + 2) S false) X
      (M + 2 - 1)) X).2 = X
    have h1 : M + 2 - 1 = M + 1 := by omega
    rw [h1, feedState_holding (M + 2) S X hN hXS (M + 1) (by omega) (by omega)]
    have hmin : min (M + 1 + 1) 255 = M + 2 := by omega
    simp [getDebounced, hXS, hmin]
  · show ((getDebounced (feedState (initDebounce (M + 2) S false) X
      (M + 1)) X).1).current_stable = X
    rw [feedState_holding (M + 2) S X hN hXS (M + 1) (by omega) (by omega)]
    have hmin : min (M + 1 + 1) 255 = M + 2 := by omega
    simp [getDebounced, hXS, hmin]

/-- C5 witness: the firmware parameters `N = 5`, stable 0, input 1 —
call 4 still reports 0, call 5 commits to 1. -/
theorem getDebounced_commit_witness :
    feedOut (initDebounce 5 0 false) 1 4 = 0 ∧
    feedOut (initDebounce 5 0 false) 1 5 = 1 :=
  ⟨((getDebounced_commit 5 0 1 (by decide) (by decide) (by decide)).1 4
      (by decide) (by decide)).1,
   (getDebounced_commit 5 0 1 (by decide) (by decide) (by decide)).2.1⟩

/-- C8: a press of Source (resp. Sound) held for `k + 1` passes and then
released to idle sends `JVC_SRC` (resp. `JVC_SOUND`) exactly once, on the
first pass where the debounced value differs from the previous pass's
value; every later pass of the hold sends nothing. -/
theorem dispatch_edge_once (k last1 last2 : Nat)
    (h1 : last1 ≠ VAL_SRC) (h2 : last2 ≠ VAL_SOUND) :
    dispatchRun last1 (List.replicate (k + 1) VAL_SRC ++ [VAL_IDLE]) =
      [JVC_SRC] :: List.replicate (k + 1) [] ∧
    dispatchRun last2 (List.replicate (k + 1) VAL_SOUND ++ [VAL_IDLE]) =
      [JVC_SOUND] :: List.replicate (k + 1) [] := by
  constructor
  · have hstep : List.replicate (k + 1) VAL_SRC ++ [VAL_IDLE] =
        VAL_SRC :: (List.replicate k VAL_SRC ++ [VAL_IDLE]) := by
      simp [List.replicate_succ]
    rw [hstep]
    show (mainSwitch VAL_SRC last1).sends ::
      dispatchRun VAL_SRC (List.replicate k VAL_SRC ++ [VAL_IDLE]) = _
    rw [dispatchRun_hold_src k]
    have h1n : (3 : Nat) ≠ last1 := by
      simp only [VAL_SRC] at h1
      exact fun he => h1 he.symm
    simp [mainSwitch, VAL_SRC, VAL_SEEKFWD, VAL_SEEKBK, VAL_VOLUP,
      VAL_VOLDN, h1n]
  · have hstep : List.replicate (k + 1) VAL_SOUND ++ [VAL_IDLE] =
        VAL_SOUND :: (List.replicate k VAL_SOUND ++ [VAL_IDLE]) := by
      simp [List.replicate_succ]
    rw [hstep]
    show (mainSwitch VAL_SOUND last2).sends ::
      dispatchRun VAL_SOUND (List.replicate k VAL_SOUND ++ [VAL_IDLE]) = _
    rw [dispatchRun_hold_sound k]
    have h2n : (6 : Nat) ≠ last2 := by
      simp only [VAL_SOUND] at h2
      exact fun he => h2 he.symm
    simp [mainSwitch, VAL_SOUND, VAL_SRC, VAL_SEEKFWD, VAL_SEEKBK,
      VAL_VOLUP, VAL_VOLDN, h2n]

/-- C8 witness: Source held for three passes from idle, then released —
one send on the first pass only. -/
theorem dispatch_edge_once_witness :
    dispatchRun VAL_IDLE (List.replicate 3 VAL_SRC ++ [VAL_IDLE]) =
      [JVC_SRC] :: List.replicate 3 [] :=
  (dispatch_edge_once 2 VAL_IDLE VAL_IDLE (by decide) (by decide)).1

/-- C9 counterexample: at sample 0, center 32768 and tolerance 0 the sum
`c + t` is within the `uint16` range, yet `inRange` accepts the sample
although `max(0, c − t) = 32768 > 0`: the `(signed)` cast of the center
is already negative, so the lower bound collapses to 0. -/
theorem inRange_signed_cast_cex :
    32768 + 0 ≤ 65535 ∧ inRange 0 32768 0 = true ∧
    ¬ ((32768 - 0 : Nat) ≤ 0 ∧ (0 : Nat) ≤ 32768 + 0) := by
  decide

/-- C9 (amended: center and tolerance restricted to the `int16` range
`≤ 32767`, so the `(signed)` casts do not change their values): the
window test accepts `s` iff `max(0, c − t) ≤ s ≤ c + t`, the lower
bound saturating at 0 through the signed-domain comparison `chk <= 0`. -/
theorem inRange_window (s c t : Nat) (hc : c ≤ 32767) (ht : t ≤ 32767) :
    inRange s c t = true ↔ (c - t ≤ s ∧ s ≤ c + t) := by
  simp only [inRange, wrap16, toInt16, Bool.and_eq_true, decide_eq_true_eq]
  split_ifs <;> omega

/-- C9 witness: the VolumeDown window at its center. -/
theorem inRange_window_witness : inRange 157 157 30 = true :=
  (inRange_window 157 157 30 (by decide) (by decide)).mpr (by decide)

/-- C10: a `JVCCommand` call for any command byte consumes exactly
`3 * (73 + 2 * popcount (cmd & 0x7F))` ticks — per frame 25 header
ticks, 4 start-bit ticks, 22 address ticks, `14 + 2 * popcount` command
ticks and 8 stop ticks — hence between 219 and 261 ticks in total. -/
theorem JVCCommand_total_ticks :
    ∀ cmd, cmd < 256 →
      totalTicks (JVCCommandFrame cmd) =
        25 + 4 + 22 + (14 + 2 * popcount (cmd &&& 0x7F)) + 8 ∧
      totalTicks (JVCCommand cmd) = 3 * (73 + 2 * popcount (cmd &&& 0x7F)) ∧
      219 ≤ totalTicks (JVCCommand cmd) ∧
      totalTicks (JVCCommand cmd) ≤ 261 := by
  decide

/-- C10 witness: the SkipForward command 0x12 (two set bits). -/
theorem JVCCommand_total_ticks_witness :
    totalTicks (JVCCommand 0x12) = 3 * (73 + 2 * popcount (0x12 &&& 0x7F)) :=
  (JVCCommand_total_ticks 0x12 (by decide)).2.1

